import Mathlib

/-!
Verification of the object/buffer lifecycle subsystem of blazed-demo
(`client/src/base/obj.rs`), shallowly embedded in Lean 4.

The GPU context (`glow::Context`) is modelled as an explicit allocation
state threaded through every fallible operation; `f32` values are
modelled as rationals (the geometry tables only contain 0 and ±1, and no
floating-point arithmetic is performed on them in the embedded code);
the `usize → i32` cast in `from_raw` is modelled exactly (reduction
modulo 2^32 into the signed range).  Types that live outside the
reviewed sources (`ObjectData`, `Program`, `free_buffers`, `Id`,
`Vector`, `Color`) are modelled from the specification and are marked
as such in their doc comments.
-/

namespace Blazed

/-- Modelled from the spec: `Identity` is an opaque, equality-comparable,
hashable value uniquely naming one entity (spec §3); the concrete `Id`
type is defined outside the reviewed sources, so we model it as `Nat`. -/
abbrev Id := Nat

/-- f32 values are modelled as rationals; the embedded code never performs
floating-point arithmetic on them (geometry tables hold only 0 and ±1). -/
abbrev F32 := Rat

/-- Modelled from the spec: `SpatialVector`, a 3-component floating-point
vector used both as position and as box dimensions (spec §3). -/
structure Vector where
  x : F32
  y : F32
  z : F32
deriving DecidableEq

/-- Modelled from the spec: shading color, 3–4 floating-point channels
(spec §3); modelled as a list of channels. -/
abbrev Color := List F32

/-- `RawObjectDataUnit` from the client sources: the kind tag {Player, Basic}
(spec §3, `EntityKind`). -/
inductive RawObjectDataUnit where
  | Player
  | Basic
deriving DecidableEq

/-- Modelled from the spec: the kind-tagged payload (spec §3, `Payload`):
Player carries only a position (`PlayerData::new(pos)`); Basic carries a
position and a dimension vector (`BasicData::new(pos, dim)`). -/
inductive RawObjectData where
  | Player (pos : Vector)
  | Basic (pos : Vector) (dim : Vector)
deriving DecidableEq

/-- The kind tag of a payload (the active variant of `RawObjectData`). -/
def RawObjectData.unit : RawObjectData → RawObjectDataUnit
  | .Player _ => .Player
  | .Basic _ _ => .Basic

/-- The kind → payload construction repeated verbatim at obj.rs:75-78,
obj.rs:137-140 and obj.rs:383-386 (`match kind { Player => ..., Basic => ... }`),
factored into one definition. -/
def rawDataOfKind (kind : RawObjectDataUnit) (pos dim : Vector) : RawObjectData :=
  match kind with
  | .Player => RawObjectData.Player pos
  | .Basic => RawObjectData.Basic pos dim

/-- Modelled from the spec: `EntityData` = {identity, color, kind-tagged
payload, derived model transform} (spec §3, §4.2).  The transform is a pure
function of the payload's position (and, for Basic, dimension); we model it
as an optional snapshot of the payload fields it is derived from, `none`
meaning it has not been (re)computed since construction. -/
structure ObjectData where
  id : Id
  color : Color
  raw : RawObjectData
  model : Option RawObjectData
deriving DecidableEq

/-- Modelled from the spec: `ObjectData::new(id, color, raw)` — constructed
from {identity, color, payload}; the derived transform starts uncomputed. -/
def ObjectData.new (id : Id) (color : Color) (raw : RawObjectData) : ObjectData :=
  { id := id, color := color, raw := raw, model := none }

/-- Modelled from the spec: `recompute_transform()` / `model_upt()` — the
model transform is recomputed as a pure function of the payload's position
(and, for Basic, dimension) (spec §3, §4.2). -/
def ObjectData.model_upt (d : ObjectData) : ObjectData :=
  { d with model := some d.raw }

/-- The kind of an entity, derived from the payload's tag (spec §4.2). -/
def ObjectData.kind (d : ObjectData) : RawObjectDataUnit :=
  d.raw.unit

/-- Modelled from the spec: the shading-program style tag (Simple vs Normal)
used solely to pick a stock-geometry builder (spec §6, `ProgramUnit`). -/
inductive ProgramUnit where
  | Simple
  | Normal
deriving DecidableEq

/-- Modelled from the spec: a shading program — an opaque handle plus a
style tag (spec §6); `program.kind()` returns the tag. -/
structure Program where
  handle : Nat
  kind : ProgramUnit
deriving DecidableEq

/-- The GPU context (`glow::Context`), modelled as an explicit allocation
state: `nextHandle` names the next fresh handle, `canAlloc` is how many
further allocations the context will grant before refusing (creation is the
only fallible operation, spec §7), `live` the currently allocated handles,
and `released` the trace, in order, of every handle handed back.  Bind,
upload and attribute-configuration calls are infallible and do not affect
this allocation state. -/
structure Context where
  nextHandle : Nat
  canAlloc : Nat
  live : List Nat
  released : List Nat
deriving DecidableEq

/-- Allocate one handle from the context; fails (refuses) iff the remaining
allocation budget is exhausted. -/
def Context.createHandle (gl : Context) : Except Unit Nat × Context :=
  if gl.canAlloc = 0 then
    (Except.error (), gl)
  else
    (Except.ok gl.nextHandle,
      { gl with
        nextHandle := gl.nextHandle + 1
        canAlloc := gl.canAlloc - 1
        live := gl.live ++ [gl.nextHandle] })

/-- `gl.create_vertex_array()` (glow): allocate a vertex-array handle. -/
def Context.create_vertex_array (gl : Context) : Except Unit Nat × Context :=
  gl.createHandle

/-- `gl.create_buffer()` (glow): allocate a buffer handle. -/
def Context.create_buffer (gl : Context) : Except Unit Nat × Context :=
  gl.createHandle

/-- Release one handle back to the context: it leaves the live set and is
appended to the release trace. -/
def Context.releaseHandle (gl : Context) (h : Nat) : Context :=
  { gl with
    live := gl.live.filter (fun x => x ≠ h)
    released := gl.released ++ [h] }

/-- `Buffers` (obj.rs:13-18): the trio of GPU handles backing one entity's
geometry — vertex-array, vertex-buffer, index-buffer. -/
structure Buffers where
  vao : Nat
  vbo : Nat
  ebo : Nat
deriving DecidableEq

/-- Modelled from the spec: the client helper `free_buffers(gl, buffers)`
(called from `RawObjects::retain`, obj.rs:434, but defined outside the
reviewed sources) hands all three handles of a `Buffers` back to the owning
GPU context (spec §4.1). -/
def free_buffers (gl : Context) (b : Buffers) : Context :=
  ((gl.releaseHandle b.vao).releaseHandle b.vbo).releaseHandle b.ebo

/-- GL enum `TRIANGLES` (= 4). -/
def TRIANGLES : Nat := 4

/-- GL enum `TRIANGLE_STRIP` (= 5). -/
def TRIANGLE_STRIP : Nat := 5

/-- GL enum `UNSIGNED_BYTE` (= 0x1401). -/
def UNSIGNED_BYTE : Nat := 5121

/-- `Object` (obj.rs:34-42): one renderable — shared program handle, owned
`Buffers`, the `ObjectData`, primitive mode, index element type, and the
index count `len` (an `i32` in the source, modelled as `Int`). -/
structure Object where
  program : Program
  buffers : Buffers
  data : ObjectData
  mode : Nat
  element_type : Nat
  len : Int
deriving DecidableEq

/-- `Object::new` (obj.rs:45-61). -/
def Object.new (program : Program) (buffers : Buffers) (mode : Nat)
    (element_type : Nat) (len : Int) (data : ObjectData) : Object :=
  { program := program, buffers := buffers, data := data,
    mode := mode, element_type := element_type, len := len }

/-- The identity of an object (delegates to its data, obj.rs:331-333). -/
def Object.id (o : Object) : Id :=
  o.data.id

/-- The color of an object (delegates to its data, obj.rs:335-337). -/
def Object.color (o : Object) : Color :=
  o.data.color

/-- The kind of an object (delegated to `ObjectData` through `Deref`,
obj.rs:352-358). -/
def Object.kind (o : Object) : RawObjectDataUnit :=
  o.data.kind

/-- The Rust `usize → i32` cast (`indices.len() as i32`, obj.rs:297):
truncation to the low 32 bits, reinterpreted as a signed 32-bit value. -/
def usizeToI32 (n : Nat) : Int :=
  if n % 2 ^ 32 < 2 ^ 31 then ((n % 2 ^ 32 : Nat) : Int)
  else ((n % 2 ^ 32 : Nat) : Int) - 2 ^ 32

/-- `Object::from_raw` (obj.rs:233-301): allocates one vertex-array and two
buffers from the context (each fallible; the `?` operator propagates the
first refusal), uploads the vertex and index content and configures the
attributes (infallible, no effect on the modelled allocation state), unbinds
all GPU state, calls `data.model_upt()` once, and returns the assembled
object with `len = indices.len() as i32`. -/
def Object.from_raw {V I : Type} (gl : Context) (program : Program)
    (vertices : List V) (indices : List I) (mode : Nat) (element_type : Nat)
    (data : ObjectData) (has_norms : Bool) : Except Unit Object × Context :=
  match gl.create_vertex_array with
  | (Except.error e, gl1) => (Except.error e, gl1)
  | (Except.ok vao, gl1) =>
    match gl1.create_buffer with
    | (Except.error e, gl2) => (Except.error e, gl2)
    | (Except.ok vbo, gl2) =>
      match gl2.create_buffer with
      | (Except.error e, gl3) => (Except.error e, gl3)
      | (Except.ok ebo, gl3) =>
        -- the source then binds the VAO, uploads the VBO/EBO contents,
        -- configures attribute 0 (and attribute 1 when `has_norms`) at a
        -- stride of 3 or 6 floats, and unbinds everything
        -- (obj.rs:249-285): all infallible and without effect on the
        -- modelled allocation state.  `data.model_upt()` is the initial
        -- transformation update (obj.rs:290).
        (Except.ok (Object.new program { vao := vao, vbo := vbo, ebo := ebo }
          mode element_type (usizeToI32 indices.length) data.model_upt), gl3)

/-- The flat-cube vertex table (obj.rs:96-106): 8 corners of the cube from
(-1,-1,-1) to (1,1,1), position only, 3 floats per vertex, built from
`x = y = z = -1.0` and `xw = yh = zd = 1.0`. -/
def flatCubeVertices : List F32 :=
  [ 1,  1, -1,   -- [1, 1, 0] [00]
   -1,  1, -1,   -- [0, 1, 0] [01]
    1,  1,  1,   -- [1, 1, 1] [02]
   -1,  1,  1,   -- [0, 1, 1] [03]
    1, -1, -1,   -- [1, 0, 0] [04]
   -1, -1, -1,   -- [0, 0, 0] [05]
   -1, -1,  1,   -- [0, 0, 1] [06]
    1, -1,  1]   -- [1, 0, 1] [07]

/-- The flat-cube index table (obj.rs:108-111): one triangle strip with
degenerate triangles covering all 6 faces. -/
def flatCubeIndices : List Nat :=
  [0, 1, 4, 5, 6, 1, 3, 0, 2, 4, 7, 6, 2, 3]

/-- `Object::create_flat_cube_with` (obj.rs:87-123): uploads the fixed
flat-cube tables as a triangle strip with unsigned-byte indices and no
normals. -/
def Object.create_flat_cube_with (gl : Context) (program : Program)
    (data : ObjectData) : Except Unit Object × Context :=
  Object.from_raw gl program flatCubeVertices flatCubeIndices
    TRIANGLE_STRIP UNSIGNED_BYTE data false

/-- `Object::create_flat_cube` (obj.rs:66-82): builds the payload from the
kind tag, wraps it into an `ObjectData`, and defers to
`create_flat_cube_with`. -/
def Object.create_flat_cube (gl : Context) (program : Program)
    (pos dim : Vector) (color : Color) (id : Id)
    (kind : RawObjectDataUnit) : Except Unit Object × Context :=
  Object.create_flat_cube_with gl program
    (ObjectData.new id color (rawDataOfKind kind pos dim))

/-- The shaded-cube vertex table (obj.rs:161-198): 24 vertices, 4 per face
for 6 faces, each a 3-float position followed by the face's 3-float outward
normal. -/
def cubeVertices : List F32 :=
  [ -- BACK
   -1, -1, -1,   0,  0, -1,   -- [00]
   -1,  1, -1,   0,  0, -1,   -- [01]
    1, -1, -1,   0,  0, -1,   -- [02]
    1,  1, -1,   0,  0, -1,   -- [03]
   -- FRONT
   -1, -1,  1,   0,  0,  1,   -- [04]
   -1,  1,  1,   0,  0,  1,   -- [05]
    1, -1,  1,   0,  0,  1,   -- [06]
    1,  1,  1,   0,  0,  1,   -- [07]
   -- LEFT
   -1, -1,  1,  -1,  0,  0,   -- [08]
   -1,  1,  1,  -1,  0,  0,   -- [09]
   -1, -1, -1,  -1,  0,  0,   -- [10]
   -1,  1, -1,  -1,  0,  0,   -- [11]
   -- RIGHT
    1, -1,  1,   1,  0,  0,   -- [12]
    1,  1,  1,   1,  0,  0,   -- [13]
    1, -1, -1,   1,  0,  0,   -- [14]
    1,  1, -1,   1,  0,  0,   -- [15]
   -- TOP
   -1,  1, -1,   0,  1,  0,   -- [16]
   -1,  1,  1,   0,  1,  0,   -- [17]
    1,  1, -1,   0,  1,  0,   -- [18]
    1,  1,  1,   0,  1,  0,   -- [19]
   -- BOTTOM
   -1, -1, -1,   0, -1,  0,   -- [20]
   -1, -1,  1,   0, -1,  0,   -- [21]
    1, -1, -1,   0, -1,  0,   -- [22]
    1, -1,  1,   0, -1,  0]   -- [23]

/-- The shaded-cube index table (obj.rs:200-219): 6 indices per face, two
triangles per face, each face referencing only its own 4 vertices. -/
def cubeIndices : List Nat :=
  [ 0,  3,  2,    1,  3,  0,
    6,  7,  4,    4,  7,  5,
    8, 11, 10,    9, 11,  8,
   14, 15, 12,   12, 15, 13,
   16, 19, 18,   17, 19, 16,
   22, 23, 20,   20, 23, 21]

/-- `Object::create_cube_with` (obj.rs:152-231): uploads the fixed
shaded-cube tables as a triangle list with unsigned-byte indices and
per-vertex normals. -/
def Object.create_cube_with (gl : Context) (program : Program)
    (data : ObjectData) : Except Unit Object × Context :=
  Object.from_raw gl program cubeVertices cubeIndices
    TRIANGLES UNSIGNED_BYTE data true

/-- `Object::create_cube` (obj.rs:128-147): builds the payload from the
kind tag, then dispatches on the program's style — Simple programs get the
flat cube, Normal programs get the shaded cube. -/
def Object.create_cube (gl : Context) (program : Program) (pos dim : Vector)
    (color : Color) (id : Id) (kind : RawObjectDataUnit) :
    Except Unit Object × Context :=
  match program.kind with
  | ProgramUnit.Simple =>
    Object.create_flat_cube_with gl program
      (ObjectData.new id color (rawDataOfKind kind pos dim))
  | ProgramUnit.Normal =>
    Object.create_cube_with gl program
      (ObjectData.new id color (rawDataOfKind kind pos dim))

/-- Association-list lookup, modelling `HashMap::get_mut` (key equality). -/
def lookupEntry (k : Id) : List (Id × Object) → Option Object
  | [] => none
  | (k1, v) :: rest => if k1 = k then some v else lookupEntry k rest

/-- Association-list insert-or-replace, modelling `HashMap::insert`. -/
def insertEntry (k : Id) (v : Object) : List (Id × Object) → List (Id × Object)
  | [] => [(k, v)]
  | (k1, v1) :: rest =>
    if k1 = k then (k, v) :: rest else (k1, v1) :: insertEntry k v rest

/-- Association-list removal, modelling `HashMap::remove`: extracts the
entry with the given key, if any, and returns it with the shrunk list. -/
def removeEntry (k : Id) : List (Id × Object) → Option Object × List (Id × Object)
  | [] => (none, [])
  | (k1, v) :: rest =>
    if k1 = k then (some v, rest)
    else ((removeEntry k rest).1, (k1, v) :: (removeEntry k rest).2)

/-- `RawObjects` (obj.rs:366-369): the registry — a map from `Id` to
`Object` (a `HashMap` field named `opaque` in the source, modelled as an
association list with unique keys; iteration order is irrelevant per
spec §3). -/
structure RawObjects where
  entries : List (Id × Object)
deriving DecidableEq

/-- `RawObjects::new_cube_with` (obj.rs:393-397): build a shaded cube from
the supplied data; on success insert it keyed by `data.id()`, on failure
propagate the error without touching the registry. -/
def RawObjects.new_cube_with (gl : Context) (program : Program)
    (data : ObjectData) (m : RawObjects) :
    Except Unit Unit × Context × RawObjects :=
  match Object.create_cube_with gl program data with
  | (Except.error e, gl1) => (Except.error e, gl1, m)
  | (Except.ok obj, gl1) =>
    (Except.ok (), gl1, { entries := insertEntry data.id obj m.entries })

/-- `RawObjects::new_cube` (obj.rs:373-390): build the payload from the
kind tag and defer to `new_cube_with`. -/
def RawObjects.new_cube (gl : Context) (id : Id) (program : Program)
    (pos dim : Vector) (color : Color) (kind : RawObjectDataUnit)
    (m : RawObjects) : Except Unit Unit × Context × RawObjects :=
  RawObjects.new_cube_with gl program
    (ObjectData.new id color (rawDataOfKind kind pos dim)) m

/-- `RawObjects::get_mut` (obj.rs:400-402): access to one entity's data. -/
def RawObjects.get_mut (id : Id) (m : RawObjects) : Option ObjectData :=
  (lookupEntry id m.entries).map Object.data

/-- `RawObjects::insert` (obj.rs:405-407): insert keyed by the object's own
identity. -/
def RawObjects.insert (obj : Object) (m : RawObjects) : RawObjects :=
  { entries := insertEntry obj.id obj m.entries }

/-- `RawObjects::new_light` (obj.rs:410-423): build a Basic-kind flat cube;
on success insert it keyed by `id`, on failure propagate the error without
touching the registry. -/
def RawObjects.new_light (gl : Context) (id : Id) (program : Program)
    (pos dim : Vector) (color : Color) (m : RawObjects) :
    Except Unit Unit × Context × RawObjects :=
  match Object.create_flat_cube gl program pos dim color id
      RawObjectDataUnit.Basic with
  | (Except.error e, gl1) => (Except.error e, gl1, m)
  | (Except.ok obj, gl1) =>
    (Except.ok (), gl1, { entries := insertEntry id obj m.entries })

/-- `RawObjects::remove` (obj.rs:426-428): extract and return the entity
with the given identity, if present. -/
def RawObjects.remove (id : Id) (m : RawObjects) : Option Object × RawObjects :=
  ((removeEntry id m.entries).1, { entries := (removeEntry id m.entries).2 })

/-- One traversal of the registry entries for `retain`: an entry whose kind
matches is dropped and its buffers are freed through the context (the
closure at obj.rs:432-439 returns `false` after `free_buffers`); any other
entry is kept. -/
def retainGo (gl : Context) (kind : RawObjectDataUnit) :
    List (Id × Object) → List (Id × Object) × Context
  | [] => ([], gl)
  | (k, obj) :: rest =>
    if kind = obj.kind then
      retainGo (free_buffers gl obj.buffers) kind rest
    else
      ((k, obj) :: (retainGo gl kind rest).1, (retainGo gl kind rest).2)

/-- `RawObjects::retain` (obj.rs:431-440): keep only the entries whose kind
differs from `kind`, releasing each removed entry's buffers through the GPU
context. -/
def RawObjects.retain (gl : Context) (kind : RawObjectDataUnit)
    (m : RawObjects) : RawObjects × Context :=
  ({ entries := (retainGo gl kind m.entries).1 },
    (retainGo gl kind m.entries).2)

/-- `RawObjects::iter` (obj.rs:449-451): all stored objects. -/
def RawObjects.iter (m : RawObjects) : List Object :=
  m.entries.map Prod.snd

/-- The buffers released by `retain` over a list of removed entries: each
entry contributes its vao, vbo and ebo handles, in traversal order. -/
def releasedHandles : List (Id × Object) → List Nat
  | [] => []
  | p :: rest =>
    p.2.buffers.vao :: p.2.buffers.vbo :: p.2.buffers.ebo :: releasedHandles rest

/-- Free the buffers of every entry in the list, in order. -/
def freeAll (gl : Context) (l : List (Id × Object)) : Context :=
  l.foldl (fun g p => free_buffers g p.2.buffers) gl

/-- The element of the shaded-cube vertex table at a flat offset. -/
def cubeVertexAt (i : Nat) : F32 :=
  cubeVertices.getD i 0

/-- The element of the shaded-cube index table at an offset. -/
def cubeIndexAt (i : Nat) : Nat :=
  cubeIndices.getD i 0

/-- Written from the spec's words (for comparison with the source table):
the corner of the cube spanning (-1,-1,-1) to (1,1,1) named by the
(right, top, front) flags, with right = +x, top = +y, front = +z — the
convention used by the source's own face labels (RIGHT is the x = 1 face,
TOP the y = 1 face, FRONT the z = 1 face). -/
def corner (right top front : Bool) : List F32 :=
  [if right then 1 else -1, if top then 1 else -1, if front then 1 else -1]

/-- Written from the spec's words: the 8 flat-cube corners in the order
top-right-back, top-left-back, top-right-front, top-left-front,
bottom-right-back, bottom-left-back, bottom-left-front,
bottom-right-front. -/
def specFlatCubeVertices : List F32 :=
  corner true true false ++ corner false true false ++
  corner true true true ++ corner false true true ++
  corner true false false ++ corner false false false ++
  corner false false true ++ corner true false true

/-- The registry key invariant: every stored pair maps a key to an object
whose own identity equals that key. -/
def WellKeyed (m : RawObjects) : Prop :=
  ∀ p ∈ m.entries, p.1 = p.2.id

/-- Registry states (with their GPU context) reachable from an empty
registry by any sequence of the registry operations. -/
inductive Reachable : RawObjects × Context → Prop where
  | init (gl : Context) : Reachable ({ entries := [] }, gl)
  | new_cube (id : Id) (program : Program) (pos dim : Vector) (color : Color)
      (kind : RawObjectDataUnit) {m : RawObjects} {gl : Context}
      (h : Reachable (m, gl)) :
      Reachable ((RawObjects.new_cube gl id program pos dim color kind m).2.2,
        (RawObjects.new_cube gl id program pos dim color kind m).2.1)
  | new_cube_with (program : Program) (data : ObjectData)
      {m : RawObjects} {gl : Context} (h : Reachable (m, gl)) :
      Reachable ((RawObjects.new_cube_with gl program data m).2.2,
        (RawObjects.new_cube_with gl program data m).2.1)
  | insert (obj : Object) {m : RawObjects} {gl : Context}
      (h : Reachable (m, gl)) :
      Reachable (RawObjects.insert obj m, gl)
  | new_light (id : Id) (program : Program) (pos dim : Vector) (color : Color)
      {m : RawObjects} {gl : Context} (h : Reachable (m, gl)) :
      Reachable ((RawObjects.new_light gl id program pos dim color m).2.2,
        (RawObjects.new_light gl id program pos dim color m).2.1)
  | remove (id : Id) {m : RawObjects} {gl : Context} (h : Reachable (m, gl)) :
      Reachable ((RawObjects.remove id m).2, gl)
  | retain (kind : RawObjectDataUnit) {m : RawObjects} {gl : Context}
      (h : Reachable (m, gl)) :
      Reachable ((RawObjects.retain gl kind m).1, (RawObjects.retain gl kind m).2)

/-- A context that will grant three allocations (enough for one upload). -/
def glW : Context :=
  { nextHandle := 0, canAlloc := 3, live := [], released := [] }

/-- A context that refuses every allocation. -/
def glBudget0 : Context :=
  { nextHandle := 0, canAlloc := 0, live := [], released := [] }

/-- A context that grants exactly one allocation: the vertex-array creation
succeeds and the first buffer creation fails. -/
def glBudget1 : Context :=
  { nextHandle := 0, canAlloc := 1, live := [], released := [] }

/-- A concrete Simple-style program. -/
def progSimpleW : Program :=
  { handle := 7, kind := ProgramUnit.Simple }

/-- A concrete Normal-style program. -/
def progNormalW : Program :=
  { handle := 8, kind := ProgramUnit.Normal }

/-- A concrete spatial vector. -/
def vecW : Vector :=
  { x := 0, y := 0, z := 0 }

/-- A concrete color. -/
def colorW : Color :=
  [1, 0, 0]

/-- A concrete Basic-kind entity payload wrapped into data. -/
def dataW : ObjectData :=
  ObjectData.new 5 colorW (RawObjectData.Basic vecW vecW)

/-- A concrete Basic-kind object keyed by identity 5. -/
def objW : Object :=
  Object.new progNormalW { vao := 0, vbo := 1, ebo := 2 }
    TRIANGLES UNSIGNED_BYTE 36 dataW.model_upt

/-- A concrete Player-kind object keyed by identity 9. -/
def objPlayerW : Object :=
  Object.new progNormalW { vao := 3, vbo := 4, ebo := 5 }
    TRIANGLES UNSIGNED_BYTE 36
    ((ObjectData.new 9 colorW (RawObjectData.Player vecW)).model_upt)

/-- A concrete registry holding one Basic and one Player entity. -/
def regW : RawObjects :=
  { entries := [(5, objW), (9, objPlayerW)] }

/-- A concrete registry holding only Basic entities. -/
def regBasicW : RawObjects :=
  { entries := [(5, objW)] }

/-- A list of n zero indices (a plain recursion, so that no automation ever
materialises the list when n is astronomically large). -/
def zeroIndices : Nat → List Nat
  | 0 => []
  | n + 1 => 0 :: zeroIndices n

/-- An index list of length 2^32: `from_raw` succeeds on it, but the
`usize → i32` cast of its length wraps to 0. -/
def bigIndexList : List Nat :=
  zeroIndices (2 ^ 32)

/-- The object produced by running the flat-cube builder against `glW`
with program `progSimpleW` and data `dataW`. -/
def objFlatW : Object :=
  Object.new progSimpleW { vao := 0, vbo := 1, ebo := 2 }
    TRIANGLE_STRIP UNSIGNED_BYTE 14 dataW.model_upt

/-!
Theorems.  Shared helper lemmas come first, then one theorem per claim
(with its witness or counterexample where required).
-/

/-- Successful `from_raw` fully determines the returned object's fields
from the arguments: the program, mode and element type are passed through,
the index count is the `usize → i32` cast of the index-list length, and the
data is the supplied data with its transform recomputed. -/
theorem from_raw_ok {V I : Type} {gl : Context} {program : Program}
    {vertices : List V} {indices : List I} {mode element_type : Nat}
    {data : ObjectData} {has_norms : Bool} {obj : Object}
    (h : (Object.from_raw gl program vertices indices mode element_type
      data has_norms).1 = Except.ok obj) :
    obj.program = program ∧ obj.mode = mode ∧ obj.element_type = element_type ∧
    obj.len = usizeToI32 indices.length ∧ obj.data = data.model_upt := by
  unfold Object.from_raw at h
  split at h
  · simp at h
  · split at h
    · simp at h
    · split at h
      · simp at h
      · simp only [Object.new] at h
        simp at h
        subst h
        exact ⟨rfl, rfl, rfl, rfl, rfl⟩

/-- The kept entries of a `retain` traversal are exactly the entries whose
kind differs from the requested kind, in order. -/
theorem retainGo_fst (kind : RawObjectDataUnit) (l : List (Id × Object)) :
    ∀ gl : Context, (retainGo gl kind l).1
      = l.filter (fun p => p.2.kind ≠ kind) := by
  induction l with
  | nil => intro gl; rfl
  | cons p rest ih =>
    intro gl
    obtain ⟨k, obj⟩ := p
    simp only [retainGo]
    by_cases h : kind = obj.kind
    · rw [if_pos h, ih, List.filter_cons]
      have hd : (decide (obj.kind ≠ kind)) = false := by
        rw [decide_eq_false_iff_not]
        exact fun hc => hc h.symm
      simp [hd]
    · rw [if_neg h, ih, List.filter_cons]
      have hd : (decide (obj.kind ≠ kind)) = true := by
        rw [decide_eq_true_iff]
        exact fun hc => h hc.symm
      simp [hd]

/-- The context after a `retain` traversal is the input context with the
buffers of exactly the matching entries freed, in traversal order. -/
theorem retainGo_snd (kind : RawObjectDataUnit) (l : List (Id × Object)) :
    ∀ gl : Context, (retainGo gl kind l).2
      = freeAll gl (l.filter (fun p => p.2.kind = kind)) := by
  induction l with
  | nil => intro gl; rfl
  | cons p rest ih =>
    intro gl
    obtain ⟨k, obj⟩ := p
    simp only [retainGo]
    by_cases h : kind = obj.kind
    · rw [if_pos h, ih, List.filter_cons]
      have hd : (decide (obj.kind = kind)) = true := by
        rw [decide_eq_true_iff]
        exact h.symm
      simp only [hd, if_true]
      rfl
    · rw [if_neg h, ih, List.filter_cons]
      have hd : (decide (obj.kind = kind)) = false := by
        rw [decide_eq_false_iff_not]
        exact fun hc => h hc.symm
      simp [hd]

/-- Freeing one buffer set appends exactly its three handles, in order, to
the context's release trace. -/
theorem free_buffers_released (gl : Context) (b : Buffers) :
    (free_buffers gl b).released = gl.released ++ [b.vao, b.vbo, b.ebo] := by
  simp [free_buffers, Context.releaseHandle]

/-- Freeing a list of entries appends exactly each entry's three handles,
once per entry, to the release trace. -/
theorem freeAll_released (l : List (Id × Object)) :
    ∀ gl : Context, (freeAll gl l).released
      = gl.released ++ releasedHandles l := by
  induction l with
  | nil => intro gl; simp [freeAll, releasedHandles]
  | cons p rest ih =>
    intro gl
    rw [show freeAll gl (p :: rest) = freeAll (free_buffers gl p.2.buffers) rest
        from rfl]
    rw [ih, free_buffers_released, releasedHandles]
    simp

/-- Claim C1: for every registry state and kind K, `retain(K)` removes
exactly the entities of kind K, releasing each removed entity's buffer
trio exactly once through the GPU context (conjuncts 1–3); every entity of
a different kind stays in the registry unchanged (conjunct 4); and when no
entity has kind K the registry and the context are both unchanged
(conjunct 5). -/
theorem retain_removes_exactly_matching_kind (m : RawObjects) (gl : Context)
    (K : RawObjectDataUnit) :
    (RawObjects.retain gl K m).1.entries
        = m.entries.filter (fun p => p.2.kind ≠ K) ∧
    (RawObjects.retain gl K m).2
        = freeAll gl (m.entries.filter (fun p => p.2.kind = K)) ∧
    (RawObjects.retain gl K m).2.released
        = gl.released
          ++ releasedHandles (m.entries.filter (fun p => p.2.kind = K)) ∧
    (∀ p ∈ m.entries, p.2.kind ≠ K → p ∈ (RawObjects.retain gl K m).1.entries) ∧
    ((∀ p ∈ m.entries, p.2.kind ≠ K) →
      (RawObjects.retain gl K m).1 = m ∧ (RawObjects.retain gl K m).2 = gl) := by
  have c1 : (RawObjects.retain gl K m).1.entries
      = m.entries.filter (fun p => p.2.kind ≠ K) := retainGo_fst K m.entries gl
  have c2 : (RawObjects.retain gl K m).2
      = freeAll gl (m.entries.filter (fun p => p.2.kind = K)) :=
    retainGo_snd K m.entries gl
  refine ⟨c1, c2, ?_, ?_, ?_⟩
  · rw [c2, freeAll_released]
  · intro p hp hk
    rw [c1, List.mem_filter]
    exact ⟨hp, by simpa using hk⟩
  · intro hall
    constructor
    · have hfe : m.entries.filter (fun p => p.2.kind ≠ K) = m.entries :=
        List.filter_eq_self.mpr (fun p hp => by simpa using hall p hp)
      have h1 : (RawObjects.retain gl K m).1.entries = m.entries := c1.trans hfe
      calc (RawObjects.retain gl K m).1
          = { entries := (RawObjects.retain gl K m).1.entries } := rfl
        _ = { entries := m.entries } := by rw [h1]
        _ = m := rfl
    · have hnil : m.entries.filter (fun p => p.2.kind = K) = [] := by
        rw [List.filter_eq_nil_iff]
        intro p hp
        simpa using hall p hp
      rw [c2, hnil]
      rfl

/-- Witness for C1: concrete registry with one Basic and one Player entity;
retaining away Basic keeps exactly the non-Basic entries, and retaining a
kind absent from a Basic-only registry changes neither the registry nor the
context. -/
theorem retain_removes_exactly_matching_kind_witness :
    (RawObjects.retain glW RawObjectDataUnit.Basic regW).1.entries
        = regW.entries.filter (fun p => p.2.kind ≠ RawObjectDataUnit.Basic) ∧
    (RawObjects.retain glW RawObjectDataUnit.Player regBasicW).1 = regBasicW ∧
    (RawObjects.retain glW RawObjectDataUnit.Player regBasicW).2 = glW := by
  refine ⟨(retain_removes_exactly_matching_kind regW glW
      RawObjectDataUnit.Basic).1, ?_, ?_⟩
  · exact ((retain_removes_exactly_matching_kind regBasicW glW
      RawObjectDataUnit.Player).2.2.2.2 (by decide)).1
  · exact ((retain_removes_exactly_matching_kind regBasicW glW
      RawObjectDataUnit.Player).2.2.2.2 (by decide)).2

/-- The length of a zero-index list. -/
theorem zeroIndices_length (n : Nat) : (zeroIndices n).length = n := by
  induction n with
  | zero => rfl
  | succ k ih => simp [zeroIndices, ih]

/-- Claim C2 (amended): a successful `from_raw` returns an object whose
index count is the index-list length converted to a signed 32-bit value —
equal to the length whenever the length is below 2^31 — and whose data is
the supplied data with the transform recomputed from the payload, so the
returned object carries a transform consistent with its payload. -/
theorem from_raw_index_count_and_transform {V I : Type} (gl : Context)
    (program : Program) (vertices : List V) (indices : List I)
    (mode element_type : Nat) (data : ObjectData) (has_norms : Bool)
    (obj : Object)
    (h : (Object.from_raw gl program vertices indices mode element_type
      data has_norms).1 = Except.ok obj) :
    obj.len = usizeToI32 indices.length ∧
    (indices.length < 2 ^ 31 → obj.len = (indices.length : Int)) ∧
    obj.data = data.model_upt ∧
    obj.data.model = some data.raw := by
  obtain ⟨-, -, -, hlen, hdata⟩ := from_raw_ok h
  refine ⟨hlen, ?_, hdata, ?_⟩
  · intro hlt
    have hm : indices.length % 2 ^ 32 = indices.length :=
      Nat.mod_eq_of_lt (lt_trans hlt (by norm_num))
    rw [hlen, usizeToI32, hm, if_pos hlt]
  · rw [hdata]
    rfl

/-- Witness for C2: a concrete successful upload of the flat-cube tables
yields the expected object with index count 14 and recomputed transform. -/
theorem from_raw_index_count_and_transform_witness :
    ((Object.from_raw glW progSimpleW flatCubeVertices flatCubeIndices
        TRIANGLE_STRIP UNSIGNED_BYTE dataW false).1 = Except.ok objFlatW) ∧
    objFlatW.len = 14 ∧ objFlatW.data = dataW.model_upt ∧
    objFlatW.data.model = some dataW.raw := by
  have h : (Object.from_raw glW progSimpleW flatCubeVertices flatCubeIndices
      TRIANGLE_STRIP UNSIGNED_BYTE dataW false).1 = Except.ok objFlatW := rfl
  have hc := from_raw_index_count_and_transform glW progSimpleW
    flatCubeVertices flatCubeIndices TRIANGLE_STRIP UNSIGNED_BYTE dataW false
    objFlatW h
  refine ⟨h, ?_, hc.2.2.1, hc.2.2.2⟩
  have h14 : flatCubeIndices.length = 14 := by decide
  have := hc.2.1 (by rw [h14]; norm_num)
  rw [this, h14]
  norm_num

/-- Counterexample for C2 as frozen: on an index list of length 2^32 the
upload succeeds, but the returned index count is 0, not the list length —
`indices.len() as i32` truncates. -/
theorem from_raw_index_count_counterexample :
    ((Object.from_raw glW progSimpleW ([] : List F32) bigIndexList
        TRIANGLE_STRIP UNSIGNED_BYTE dataW false).1.map Object.len
      = Except.ok 0) ∧
    ((bigIndexList.length : Int) = 2 ^ 32) ∧ ((0 : Int) ≠ 2 ^ 32) := by
  have h1 : (Object.from_raw glW progSimpleW ([] : List F32) bigIndexList
      TRIANGLE_STRIP UNSIGNED_BYTE dataW false).1
      = Except.ok (Object.new progSimpleW { vao := 0, vbo := 1, ebo := 2 }
          TRIANGLE_STRIP UNSIGNED_BYTE (usizeToI32 bigIndexList.length)
          dataW.model_upt) := rfl
  have h2 : bigIndexList.length = 2 ^ 32 := by
    simp [bigIndexList, zeroIndices_length]
  refine ⟨?_, by rw [h2]; norm_num, by norm_num⟩
  rw [h1, h2]
  norm_num [Except.map, Object.new, usizeToI32]

set_option maxRecDepth 8000

/-- Claim C3: for every position, dimension, color and kind argument, the
flat-cube builder uploads exactly the fixed 8-vertex (3 floats each) table
— the 8 corners of the cube spanning (-1,-1,-1) to (1,1,1) in the order
top-right-back, top-left-back, top-right-front, top-left-front,
bottom-right-back, bottom-left-back, bottom-left-front, bottom-right-front
— and exactly the 14-element index sequence [0,1,4,5,6,1,3,0,2,4,7,6,2,3],
with triangle-strip mode and 1-byte unsigned indices, independently of the
arguments. -/
theorem flat_cube_fixed_geometry (gl : Context) (program : Program)
    (pos dim : Vector) (color : Color) (id : Id) (kind : RawObjectDataUnit) :
    Object.create_flat_cube gl program pos dim color id kind
        = Object.from_raw gl program flatCubeVertices flatCubeIndices
            TRIANGLE_STRIP UNSIGNED_BYTE
            (ObjectData.new id color (rawDataOfKind kind pos dim)) false ∧
    flatCubeVertices = specFlatCubeVertices ∧
    flatCubeVertices.length = 8 * 3 ∧
    flatCubeIndices = [0, 1, 4, 5, 6, 1, 3, 0, 2, 4, 7, 6, 2, 3] ∧
    (∀ obj : Object,
      (Object.create_flat_cube gl program pos dim color id kind).1
          = Except.ok obj →
      obj.mode = TRIANGLE_STRIP ∧ obj.element_type = UNSIGNED_BYTE ∧
      obj.len = 14) := by
  refine ⟨rfl, by decide, by decide, by decide, ?_⟩
  intro obj h
  have h2 : (Object.from_raw gl program flatCubeVertices flatCubeIndices
      TRIANGLE_STRIP UNSIGNED_BYTE
      (ObjectData.new id color (rawDataOfKind kind pos dim)) false).1
      = Except.ok obj := h
  obtain ⟨-, hm, he, hl, -⟩ := from_raw_ok h2
  refine ⟨hm, he, ?_⟩
  rw [hl]
  decide

/-- Witness for C3: a concrete successful flat-cube build carries
triangle-strip mode, and the source table equals the spec's corner list. -/
theorem flat_cube_fixed_geometry_witness :
    (Object.create_flat_cube glW progSimpleW vecW vecW colorW 5
        RawObjectDataUnit.Basic).1.map Object.mode = Except.ok TRIANGLE_STRIP ∧
    flatCubeVertices = specFlatCubeVertices := by
  have hc := flat_cube_fixed_geometry glW progSimpleW vecW vecW colorW 5
    RawObjectDataUnit.Basic
  have h : (Object.create_flat_cube glW progSimpleW vecW vecW colorW 5
      RawObjectDataUnit.Basic).1 = Except.ok objFlatW := rfl
  refine ⟨?_, hc.2.1⟩
  rw [h, Except.map]
  rw [(hc.2.2.2.2 objFlatW h).1]

/-- Claim C4: for every argument, the shaded-cube builder uploads exactly
24 vertices (4 per face for 6 faces, each a 3-float position at a cube
corner followed by the face's 3-float outward axis-aligned unit normal,
6 floats per vertex) and exactly 36 indices with triangle-list mode and
1-byte unsigned indices, where each face's 6 indices (2 triangles)
reference only that face's own 4 vertices. -/
theorem shaded_cube_fixed_geometry (gl : Context) (program : Program)
    (data : ObjectData) :
    Object.create_cube_with gl program data
        = Object.from_raw gl program cubeVertices cubeIndices
            TRIANGLES UNSIGNED_BYTE data true ∧
    cubeVertices.length = 24 * 6 ∧
    cubeIndices.length = 36 ∧
    (∀ f : Fin 6, ∃ a : Fin 3, ∃ s : Bool,
      ∀ k : Fin 4,
        (∀ i : Fin 3, cubeVertexAt (6 * (4 * f.val + k.val) + 3 + i.val)
            = (if i = a then (if s then (1 : F32) else -1) else 0)) ∧
        cubeVertexAt (6 * (4 * f.val + k.val) + a.val)
            = (if s then (1 : F32) else -1) ∧
        (∀ i : Fin 3, cubeVertexAt (6 * (4 * f.val + k.val) + i.val) = 1 ∨
          cubeVertexAt (6 * (4 * f.val + k.val) + i.val) = -1)) ∧
    (∀ f : Fin 6, ∀ j : Fin 6,
      4 * f.val ≤ cubeIndexAt (6 * f.val + j.val) ∧
      cubeIndexAt (6 * f.val + j.val) ≤ 4 * f.val + 3) ∧
    (∀ obj : Object,
      (Object.create_cube_with gl program data).1 = Except.ok obj →
      obj.mode = TRIANGLES ∧ obj.element_type = UNSIGNED_BYTE ∧
      obj.len = 36) := by
  refine ⟨rfl, by decide, by decide, by decide, by decide, ?_⟩
  intro obj h
  have h2 : (Object.from_raw gl program cubeVertices cubeIndices
      TRIANGLES UNSIGNED_BYTE data true).1 = Except.ok obj := h
  obtain ⟨-, hm, he, hl, -⟩ := from_raw_ok h2
  refine ⟨hm, he, ?_⟩
  rw [hl]
  decide

/-- Witness for C4: a concrete successful shaded-cube build carries
triangle-list mode and index count 36. -/
theorem shaded_cube_fixed_geometry_witness :
    (Object.create_cube_with glW progNormalW dataW).1.map Object.mode
      = Except.ok TRIANGLES ∧
    (Object.create_cube_with glW progNormalW dataW).1.map Object.len
      = Except.ok 36 := by
  have hc := shaded_cube_fixed_geometry glW progNormalW dataW
  have h : (Object.create_cube_with glW progNormalW dataW).1
      = Except.ok (Object.new progNormalW { vao := 0, vbo := 1, ebo := 2 }
          TRIANGLES UNSIGNED_BYTE 36 dataW.model_upt) := rfl
  have hp := hc.2.2.2.2.2 _ h
  constructor
  · rw [h, Except.map, hp.1]
  · rw [h, Except.map, hp.2.2]

/-- Claim C5 (code bug, evaluated at the failing input): against a context
that grants exactly one allocation, `from_raw` propagates the buffer
failure while the already-created vertex-array handle (handle 0) is still
live and nothing has been released — the vertex-array is NOT released
before the failure is propagated, contradicting the claim. -/
theorem from_raw_partial_failure_leaks_vertex_array :
    (Object.from_raw glBudget1 progSimpleW ([] : List F32) ([] : List Nat)
        TRIANGLE_STRIP UNSIGNED_BYTE dataW false).1 = Except.error () ∧
    (Object.from_raw glBudget1 progSimpleW ([] : List F32) ([] : List Nat)
        TRIANGLE_STRIP UNSIGNED_BYTE dataW false).2.live = [0] ∧
    (Object.from_raw glBudget1 progSimpleW ([] : List F32) ([] : List Nat)
        TRIANGLE_STRIP UNSIGNED_BYTE dataW false).2.released = [] :=
  ⟨rfl, rfl, rfl⟩

/-- The payload built from a kind tag carries that tag. -/
theorem rawDataOfKind_unit (kind : RawObjectDataUnit) (pos dim : Vector) :
    (rawDataOfKind kind pos dim).unit = kind := by
  cases kind <;> rfl

/-- Claim C6: when a registry creation operation (`new_cube_with`,
`new_cube`, `new_light`) fails because the GPU context refuses an
allocation, the registry after the call is identical to the registry
before it — no partial entry is inserted. -/
theorem failed_creation_leaves_registry_unchanged (gl : Context)
    (program : Program) (data : ObjectData) (id : Id) (pos dim : Vector)
    (color : Color) (kind : RawObjectDataUnit) (m : RawObjects) :
    ((RawObjects.new_cube_with gl program data m).1 = Except.error () →
      (RawObjects.new_cube_with gl program data m).2.2 = m) ∧
    ((RawObjects.new_cube gl id program pos dim color kind m).1
        = Except.error () →
      (RawObjects.new_cube gl id program pos dim color kind m).2.2 = m) ∧
    ((RawObjects.new_light gl id program pos dim color m).1
        = Except.error () →
      (RawObjects.new_light gl id program pos dim color m).2.2 = m) := by
  refine ⟨?_, ?_, ?_⟩
  · intro h
    unfold RawObjects.new_cube_with at h ⊢
    rcases hc : Object.create_cube_with gl program data with ⟨r, gl1⟩
    rw [hc] at h
    cases r with
    | error e => rfl
    | ok obj => simp at h
  · intro h
    unfold RawObjects.new_cube RawObjects.new_cube_with at h ⊢
    rcases hc : Object.create_cube_with gl program
        (ObjectData.new id color (rawDataOfKind kind pos dim)) with ⟨r, gl1⟩
    rw [hc] at h
    cases r with
    | error e => rfl
    | ok obj => simp at h
  · intro h
    unfold RawObjects.new_light at h ⊢
    rcases hc : Object.create_flat_cube gl program pos dim color id
        RawObjectDataUnit.Basic with ⟨r, gl1⟩
    rw [hc] at h
    cases r with
    | error e => rfl
    | ok obj => simp at h

/-- Witness for C6: against a context that refuses every allocation, both
`new_cube_with` and `new_light` leave a concrete registry unchanged. -/
theorem failed_creation_leaves_registry_unchanged_witness :
    (RawObjects.new_cube_with glBudget0 progNormalW dataW regW).2.2 = regW ∧
    (RawObjects.new_light glBudget0 5 progSimpleW vecW vecW colorW regW).2.2
      = regW := by
  constructor
  · exact (failed_creation_leaves_registry_unchanged glBudget0 progNormalW
      dataW 5 vecW vecW colorW RawObjectDataUnit.Basic regW).1 rfl
  · exact (failed_creation_leaves_registry_unchanged glBudget0 progSimpleW
      dataW 5 vecW vecW colorW RawObjectDataUnit.Basic regW).2.2 rfl

/-- Claim C7: starting from an empty registry, a successful
`new_cube(kind, ...)` followed by `iter()` yields exactly one entity, whose
kind equals the requested kind and whose color and identity equal the
inputs (for each kind, Basic and Player alike). -/
theorem create_cube_into_empty_registry (gl : Context) (id : Id)
    (program : Program) (pos dim : Vector) (color : Color)
    (kind : RawObjectDataUnit)
    (h : (RawObjects.new_cube gl id program pos dim color kind
        { entries := [] }).1 = Except.ok ()) :
    ((RawObjects.new_cube gl id program pos dim color kind
        { entries := [] }).2.2.iter.map Object.kind = [kind]) ∧
    ((RawObjects.new_cube gl id program pos dim color kind
        { entries := [] }).2.2.iter.map Object.color = [color]) ∧
    ((RawObjects.new_cube gl id program pos dim color kind
        { entries := [] }).2.2.iter.map Object.id = [id]) := by
  unfold RawObjects.new_cube RawObjects.new_cube_with at h ⊢
  rcases hc : Object.create_cube_with gl program
      (ObjectData.new id color (rawDataOfKind kind pos dim)) with ⟨r, gl1⟩
  rw [hc] at h
  cases r with
  | error e => simp at h
  | ok obj =>
    have h2 : (Object.from_raw gl program cubeVertices cubeIndices
        TRIANGLES UNSIGNED_BYTE
        (ObjectData.new id color (rawDataOfKind kind pos dim)) true).1
        = Except.ok obj := by
      have h3 : (Object.create_cube_with gl program
          (ObjectData.new id color (rawDataOfKind kind pos dim))).1
          = Except.ok obj := by rw [hc]
      exact h3
    obtain ⟨-, -, -, -, hdata⟩ := from_raw_ok h2
    simp [RawObjects.iter, insertEntry, Object.kind, Object.color, Object.id,
      hdata, ObjectData.model_upt, ObjectData.kind, ObjectData.new,
      rawDataOfKind_unit]

/-- Witness for C7: concrete successful creations for both kinds on an
empty registry yield exactly one entity with the requested kind, the input
color and the input identity. -/
theorem create_cube_into_empty_registry_witness :
    ((RawObjects.new_cube glW 5 progNormalW vecW vecW colorW
        RawObjectDataUnit.Basic { entries := [] }).2.2.iter.map Object.kind
      = [RawObjectDataUnit.Basic]) ∧
    ((RawObjects.new_cube glW 9 progNormalW vecW vecW colorW
        RawObjectDataUnit.Player { entries := [] }).2.2.iter.map Object.kind
      = [RawObjectDataUnit.Player]) ∧
    ((RawObjects.new_cube glW 5 progNormalW vecW vecW colorW
        RawObjectDataUnit.Basic { entries := [] }).2.2.iter.map Object.color
      = [colorW]) ∧
    ((RawObjects.new_cube glW 5 progNormalW vecW vecW colorW
        RawObjectDataUnit.Basic { entries := [] }).2.2.iter.map Object.id
      = [5]) := by
  refine ⟨?_, ?_, ?_, ?_⟩
  · exact (create_cube_into_empty_registry glW 5 progNormalW vecW vecW colorW
      RawObjectDataUnit.Basic rfl).1
  · exact (create_cube_into_empty_registry glW 9 progNormalW vecW vecW colorW
      RawObjectDataUnit.Player rfl).1
  · exact (create_cube_into_empty_registry glW 5 progNormalW vecW vecW colorW
      RawObjectDataUnit.Basic rfl).2.1
  · exact (create_cube_into_empty_registry glW 5 progNormalW vecW vecW colorW
      RawObjectDataUnit.Basic rfl).2.2

/-- Claim C8: the stock cube constructor `create_cube` dispatches on the
program's declared style — a Simple-style program gets the flat cube
(8 vertices, 14 indices, triangle strip), a Normal-style program gets the
shaded cube (24 vertices, 36 indices, triangle list). -/
theorem create_cube_dispatches_on_program_kind (gl : Context)
    (program : Program) (pos dim : Vector) (color : Color) (id : Id)
    (kind : RawObjectDataUnit) :
    (program.kind = ProgramUnit.Simple →
      Object.create_cube gl program pos dim color id kind
          = Object.create_flat_cube_with gl program
              (ObjectData.new id color (rawDataOfKind kind pos dim)) ∧
      ∀ obj : Object,
        (Object.create_cube gl program pos dim color id kind).1
            = Except.ok obj →
        obj.mode = TRIANGLE_STRIP ∧ obj.len = 14) ∧
    (program.kind = ProgramUnit.Normal →
      Object.create_cube gl program pos dim color id kind
          = Object.create_cube_with gl program
              (ObjectData.new id color (rawDataOfKind kind pos dim)) ∧
      ∀ obj : Object,
        (Object.create_cube gl program pos dim color id kind).1
            = Except.ok obj →
        obj.mode = TRIANGLES ∧ obj.len = 36) ∧
    flatCubeVertices.length = 8 * 3 ∧ flatCubeIndices.length = 14 ∧
    cubeVertices.length = 24 * 6 ∧ cubeIndices.length = 36 := by
  refine ⟨?_, ?_, by decide, by decide, by decide, by decide⟩
  · intro hS
    have he : Object.create_cube gl program pos dim color id kind
        = Object.create_flat_cube_with gl program
            (ObjectData.new id color (rawDataOfKind kind pos dim)) := by
      unfold Object.create_cube
      rw [hS]
    refine ⟨he, ?_⟩
    intro obj h
    rw [he] at h
    have h2 : (Object.from_raw gl program flatCubeVertices flatCubeIndices
        TRIANGLE_STRIP UNSIGNED_BYTE
        (ObjectData.new id color (rawDataOfKind kind pos dim)) false).1
        = Except.ok obj := h
    obtain ⟨-, hm, -, hl, -⟩ := from_raw_ok h2
    refine ⟨hm, ?_⟩
    rw [hl]
    decide
  · intro hN
    have he : Object.create_cube gl program pos dim color id kind
        = Object.create_cube_with gl program
            (ObjectData.new id color (rawDataOfKind kind pos dim)) := by
      unfold Object.create_cube
      rw [hN]
    refine ⟨he, ?_⟩
    intro obj h
    rw [he] at h
    have h2 : (Object.from_raw gl program cubeVertices cubeIndices
        TRIANGLES UNSIGNED_BYTE
        (ObjectData.new id color (rawDataOfKind kind pos dim)) true).1
        = Except.ok obj := h
    obtain ⟨-, hm, -, hl, -⟩ := from_raw_ok h2
    refine ⟨hm, ?_⟩
    rw [hl]
    decide

/-- Witness for C8: on concrete inputs, a Simple-style program yields the
flat builder's result with triangle-strip mode, a Normal-style program a
triangle-list cube. -/
theorem create_cube_dispatches_on_program_kind_witness :
    Object.create_cube glW progSimpleW vecW vecW colorW 5
        RawObjectDataUnit.Basic
      = Object.create_flat_cube_with glW progSimpleW
          (ObjectData.new 5 colorW
            (rawDataOfKind RawObjectDataUnit.Basic vecW vecW)) ∧
    (Object.create_cube glW progSimpleW vecW vecW colorW 5
        RawObjectDataUnit.Basic).1.map Object.mode
      = Except.ok TRIANGLE_STRIP ∧
    (Object.create_cube glW progNormalW vecW vecW colorW 5
        RawObjectDataUnit.Basic).1.map Object.mode = Except.ok TRIANGLES := by
  have hcS := (create_cube_dispatches_on_program_kind glW progSimpleW vecW
    vecW colorW 5 RawObjectDataUnit.Basic).1 rfl
  have hcN := ((create_cube_dispatches_on_program_kind glW progNormalW vecW
    vecW colorW 5 RawObjectDataUnit.Basic).2.1) rfl
  have hS : (Object.create_cube glW progSimpleW vecW vecW colorW 5
      RawObjectDataUnit.Basic).1
      = Except.ok (Object.new progSimpleW { vao := 0, vbo := 1, ebo := 2 }
          TRIANGLE_STRIP UNSIGNED_BYTE 14
          (ObjectData.new 5 colorW
            (rawDataOfKind RawObjectDataUnit.Basic vecW vecW)).model_upt) :=
    rfl
  have hN : (Object.create_cube glW progNormalW vecW vecW colorW 5
      RawObjectDataUnit.Basic).1
      = Except.ok (Object.new progNormalW { vao := 0, vbo := 1, ebo := 2 }
          TRIANGLES UNSIGNED_BYTE 36
          (ObjectData.new 5 colorW
            (rawDataOfKind RawObjectDataUnit.Basic vecW vecW)).model_upt) :=
    rfl
  refine ⟨hcS.1, ?_, ?_⟩
  · rw [hS, Except.map, (hcS.2 _ hS).1]
  · rw [hN, Except.map, (hcN.2 _ hN).1]

/-- Lookup fails exactly when the key is absent from the key list. -/
theorem lookupEntry_eq_none_iff (k : Id) (l : List (Id × Object)) :
    lookupEntry k l = none ↔ k ∉ l.map Prod.fst := by
  induction l with
  | nil => simp [lookupEntry]
  | cons p rest ih =>
    obtain ⟨k1, v⟩ := p
    by_cases h : k1 = k
    · subst h
      simp [lookupEntry]
    · rw [lookupEntry, if_neg h, ih]
      simp only [List.map_cons, List.mem_cons]
      constructor
      · intro hk
        rintro (h1 | h2)
        · exact h h1.symm
        · exact hk h2
      · intro hk h2
        exact hk (Or.inr h2)

/-- Removing an absent key returns nothing and keeps the list intact. -/
theorem removeEntry_not_found (k : Id) (l : List (Id × Object))
    (h : lookupEntry k l = none) : removeEntry k l = (none, l) := by
  induction l with
  | nil => rfl
  | cons p rest ih =>
    obtain ⟨k1, v⟩ := p
    by_cases hk : k1 = k
    · rw [lookupEntry, if_pos hk] at h
      simp at h
    · rw [lookupEntry, if_neg hk] at h
      rw [removeEntry, if_neg hk, ih h]

/-- Removing a present key returns its object. -/
theorem removeEntry_found (k : Id) (l : List (Id × Object)) (obj : Object)
    (h : lookupEntry k l = some obj) : (removeEntry k l).1 = some obj := by
  induction l with
  | nil => simp [lookupEntry] at h
  | cons p rest ih =>
    obtain ⟨k1, v⟩ := p
    by_cases hk : k1 = k
    · rw [lookupEntry, if_pos hk] at h
      rw [removeEntry, if_pos hk]
      simpa using h
    · rw [lookupEntry, if_neg hk] at h
      rw [removeEntry, if_neg hk]
      exact ih h

/-- After removal under unique keys, the removed key is gone. -/
theorem removeEntry_keys (k : Id) (l : List (Id × Object))
    (hnd : (l.map Prod.fst).Nodup) :
    k ∉ (removeEntry k l).2.map Prod.fst := by
  induction l with
  | nil => simp [removeEntry]
  | cons p rest ih =>
    obtain ⟨k1, v⟩ := p
    simp only [List.map_cons, List.nodup_cons] at hnd
    by_cases hk : k1 = k
    · rw [removeEntry, if_pos hk]
      subst hk
      exact hnd.1
    · rw [removeEntry, if_neg hk]
      simp only [List.map_cons, List.mem_cons]
      rintro (h1 | h2)
      · exact hk h1.symm
      · exact ih hnd.2 h2

/-- Every entry surviving a removal was already present. -/
theorem removeEntry_subset (k : Id) (l : List (Id × Object)) :
    ∀ p ∈ (removeEntry k l).2, p ∈ l := by
  induction l with
  | nil => simp [removeEntry]
  | cons q rest ih =>
    obtain ⟨k1, v⟩ := q
    by_cases hk : k1 = k
    · rw [removeEntry, if_pos hk]
      intro p hp
      exact List.mem_cons_of_mem _ hp
    · rw [removeEntry, if_neg hk]
      intro p hp
      rcases List.mem_cons.mp hp with h1 | h2
      · exact h1 ▸ List.mem_cons_self _ _
      · exact List.mem_cons_of_mem _ (ih p h2)

/-- Claim C9: `remove(id)` on an absent identity returns nothing and leaves
the registry untouched; on a present identity it returns the owned entity,
after which `get_mut(id)` fails, the identity is absent from the stored
keys, and (in well-keyed states) no entity returned by `iter()` carries
that identity. -/
theorem remove_semantics (m : RawObjects) (id : Id)
    (hnd : (m.entries.map Prod.fst).Nodup) :
    (lookupEntry id m.entries = none →
      (RawObjects.remove id m).1 = none ∧ (RawObjects.remove id m).2 = m) ∧
    (∀ obj : Object, lookupEntry id m.entries = some obj →
      (RawObjects.remove id m).1 = some obj ∧
      RawObjects.get_mut id (RawObjects.remove id m).2 = none ∧
      id ∉ (RawObjects.remove id m).2.entries.map Prod.fst ∧
      (WellKeyed m →
        ((RawObjects.remove id m).2.iter.filter (fun o => o.id = id))
          = [])) := by
  constructor
  · intro h
    have hr := removeEntry_not_found id m.entries h
    unfold RawObjects.remove
    rw [hr]
    exact ⟨rfl, rfl⟩
  · intro obj h
    have hkeys : id ∉ (removeEntry id m.entries).2.map Prod.fst :=
      removeEntry_keys id m.entries hnd
    refine ⟨removeEntry_found id m.entries obj h, ?_, hkeys, ?_⟩
    · unfold RawObjects.get_mut RawObjects.remove
      rw [(lookupEntry_eq_none_iff id (removeEntry id m.entries).2).mpr hkeys]
      rfl
    · intro hwk
      rw [List.filter_eq_nil_iff]
      intro o ho
      simp only [RawObjects.iter, RawObjects.remove, List.mem_map] at ho
      obtain ⟨p, hp, hpo⟩ := ho
      have hpm : p ∈ m.entries := removeEntry_subset id m.entries p hp
      have hkey : p.1 = p.2.id := hwk p hpm
      intro hoid
      apply hkeys
      rw [List.mem_map]
      refine ⟨p, hp, ?_⟩
      rw [hkey, hpo]
      simpa using hoid

/-- Witness for C9: on a concrete two-entity registry, removing an absent
identity (77) changes nothing, and removing a present identity (5) returns
its object, after which the identity is gone from `get_mut` and `iter`. -/
theorem remove_semantics_witness :
    (RawObjects.remove 77 regW).1 = none ∧
    (RawObjects.remove 77 regW).2 = regW ∧
    (RawObjects.remove 5 regW).1 = some objW ∧
    RawObjects.get_mut 5 (RawObjects.remove 5 regW).2 = none ∧
    ((RawObjects.remove 5 regW).2.iter.filter (fun o => o.id = 5)) = [] := by
  have hwk : WellKeyed regW := by
    unfold WellKeyed
    decide
  have habs := (remove_semantics regW 77 (by decide)).1 (by decide)
  have hpres := (remove_semantics regW 5 (by decide)).2 objW (by decide)
  exact ⟨habs.1, habs.2, hpres.1, hpres.2.1, hpres.2.2.2 hwk⟩

/-- Insert-or-replace preserves the key invariant when the inserted key is
the object's own identity. -/
theorem insertEntry_wellKeyed (k : Id) (v : Object)
    (l : List (Id × Object)) (hk : k = v.id)
    (hl : ∀ p ∈ l, p.1 = p.2.id) :
    ∀ p ∈ insertEntry k v l, p.1 = p.2.id := by
  induction l with
  | nil =>
    intro p hp
    simp only [insertEntry, List.mem_singleton] at hp
    subst hp
    exact hk
  | cons q rest ih =>
    obtain ⟨k1, v1⟩ := q
    intro p hp
    by_cases h : k1 = k
    · rw [insertEntry, if_pos h] at hp
      rcases List.mem_cons.mp hp with h1 | h2
      · subst h1
        exact hk
      · exact hl p (List.mem_cons_of_mem _ h2)
    · rw [insertEntry, if_neg h] at hp
      rcases List.mem_cons.mp hp with h1 | h2
      · subst h1
        exact hl (k1, v1) (List.mem_cons_self _ _)
      · exact ih (fun q hq => hl q (List.mem_cons_of_mem _ hq)) p h2

/-- `new_cube_with` preserves the key invariant: the inserted key
`data.id()` equals the identity of the object built from `data`. -/
theorem new_cube_with_wellKeyed (gl : Context) (program : Program)
    (data : ObjectData) (m : RawObjects) (h : WellKeyed m) :
    WellKeyed (RawObjects.new_cube_with gl program data m).2.2 := by
  unfold RawObjects.new_cube_with
  rcases hc : Object.create_cube_with gl program data with ⟨r, gl1⟩
  cases r with
  | error e => exact h
  | ok obj =>
    have h2 : (Object.create_cube_with gl program data).1 = Except.ok obj :=
      by rw [hc]
    obtain ⟨-, -, -, -, hdata⟩ := from_raw_ok h2
    have hk : data.id = obj.id := by
      rw [Object.id, hdata]
      rfl
    exact insertEntry_wellKeyed data.id obj m.entries hk h

/-- `new_light` preserves the key invariant: the inserted key `id` equals
the identity of the flat cube built around `ObjectData::new(id, ...)`. -/
theorem new_light_wellKeyed (gl : Context) (id : Id) (program : Program)
    (pos dim : Vector) (color : Color) (m : RawObjects) (h : WellKeyed m) :
    WellKeyed (RawObjects.new_light gl id program pos dim color m).2.2 := by
  unfold RawObjects.new_light
  rcases hc : Object.create_flat_cube gl program pos dim color id
      RawObjectDataUnit.Basic with ⟨r, gl1⟩
  cases r with
  | error e => exact h
  | ok obj =>
    have h2 : (Object.create_flat_cube gl program pos dim color id
        RawObjectDataUnit.Basic).1 = Except.ok obj := by rw [hc]
    have h3 : (Object.from_raw gl program flatCubeVertices flatCubeIndices
        TRIANGLE_STRIP UNSIGNED_BYTE
        (ObjectData.new id color
          (rawDataOfKind RawObjectDataUnit.Basic pos dim)) false).1
        = Except.ok obj := h2
    obtain ⟨-, -, -, -, hdata⟩ := from_raw_ok h3
    have hk : id = obj.id := by
      rw [Object.id, hdata]
      rfl
    exact insertEntry_wellKeyed id obj m.entries hk h

/-- Claim C10: in every registry state reachable by any sequence of the
registry operations (`new_cube`, `new_cube_with`, `insert`, `new_light`,
`remove`, `retain`), every stored (key, entity) pair satisfies
key = entity's own identity; each operation preserves the invariant. -/
theorem registry_key_invariant (s : RawObjects × Context)
    (h : Reachable s) : WellKeyed s.1 := by
  induction h with
  | init gl =>
    intro p hp
    simp at hp
  | new_cube id program pos dim color kind h ih =>
    exact new_cube_with_wellKeyed _ _ _ _ ih
  | new_cube_with program data h ih =>
    exact new_cube_with_wellKeyed _ _ _ _ ih
  | insert obj h ih =>
    exact insertEntry_wellKeyed obj.id obj _ rfl ih
  | new_light id program pos dim color h ih =>
    exact new_light_wellKeyed _ _ _ _ _ _ _ ih
  | remove id h ih =>
    intro p hp
    exact ih p (removeEntry_subset id _ p hp)
  | retain kind h ih =>
    intro p hp
    rw [show (RawObjects.retain _ _ _).1.entries
        = _ from retainGo_fst kind _ _] at hp
    exact ih p (List.mem_filter.mp hp).1

/-- Witness for C10: the state reached from the empty registry by inserting
a concrete object is well-keyed. -/
theorem registry_key_invariant_witness :
    WellKeyed (RawObjects.insert objW { entries := [] }) :=
  registry_key_invariant (RawObjects.insert objW { entries := [] }, glW)
    (Reachable.insert objW (Reachable.init glW))

end Blazed
